import Mathlib

/-!
Verification of the NumPy-style tensor indexing/assignment core
(`aten/src/ATen/native/TensorIndexing.cpp`).

The tensor collaborator (storage, strides, view primitives) is out of scope of
the source file; it is modelled here from the specification's interface
contracts, with strided views over a flat storage buffer so that view aliasing
and in-place writes are represented faithfully.  The functions of the source
file itself (`count_specified_dimensions`, `boolToIndexingTensor`,
`applySlicing`, `typeConvertIndices`, `dispatch_index`, `get_item`,
`slicePrefix1sSize`, `copy_to`, `set_item`) are translated one-to-one.
-/

namespace TensorIndexing

/-- Element dtypes; the subset of ATen scalar types the indexing core inspects. -/
inductive ScalarType where
  | byte
  | bool
  | char
  | long
  | float
  | double
  | qint8
  | quint8
  | qint32
  deriving DecidableEq, Repr

/-- `at::isIntegralType(t, includeBool)`. -/
def ScalarType.isIntegralType (t : ScalarType) (includeBool : Bool) : Bool :=
  match t with
  | .byte => true
  | .char => true
  | .long => true
  | .bool => includeBool
  | _ => false

/-- `at::isQIntType`. -/
def ScalarType.isQIntType (t : ScalarType) : Bool :=
  match t with
  | .qint8 => true
  | .quint8 => true
  | .qint32 => true
  | _ => false

/-- Device placement of a tensor. -/
inductive Device where
  | cpu
  | cuda (idx : Nat)
  deriving DecidableEq, Repr

/-- Dtype/device options bundle (`c10::TensorOptions`). -/
structure TensorOptions where
  dtype : ScalarType
  device : Device
  deriving DecidableEq, Repr

/-- Row-major (contiguous) strides for a shape: stride of a dimension is the
product of the sizes after it. -/
def contiguousStrides : List Nat → List Nat
  | [] => []
  | _ :: s => s.prod :: contiguousStrides s

/-- A strided view over a flat storage buffer.  `impl` models the identity of
the view object (the `TensorImpl` pointer, compared by `is_same`); `storageId`
models the identity of the backing storage.  Scalar values are modelled as
integers; `dtype` is metadata. -/
structure Tensor where
  sizes : List Nat
  strides : List Nat
  offset : Nat
  storage : List Int
  dtype : ScalarType
  device : Device
  impl : Nat
  storageId : Nat
  deriving DecidableEq, Repr

namespace Tensor

/-- `Tensor::dim()`: the rank. -/
def dim (t : Tensor) : Nat := t.sizes.length

/-- `Tensor::options()`. -/
def options (t : Tensor) : TensorOptions := ⟨t.dtype, t.device⟩

/-- `TensorImpl` pointer comparison (`Tensor::is_same`). -/
def is_same (a b : Tensor) : Bool := a.impl == b.impl

/-- `Tensor::scalar_type()`. -/
def scalar_type (t : Tensor) : ScalarType := t.dtype

end Tensor

/-- All multi-indices of a shape, in row-major order. -/
def allIndices : List Nat → List (List Nat)
  | [] => [[]]
  | n :: s => (List.range n).flatMap (fun i => (allIndices s).map (fun ix => i :: ix))

/-- Inner product of a multi-index with strides. -/
def dotProd (ix strides : List Nat) : Nat :=
  (List.zipWith (· * ·) ix strides).sum

namespace Tensor

/-- Element at a logical multi-index, read through offset and strides. -/
def elemAt (t : Tensor) (ix : List Nat) : Int :=
  t.storage.getD (t.offset + dotProd ix t.strides) 0

/-- The logical contents of the view, flattened in row-major order. -/
def materialize (t : Tensor) : List Int :=
  (allIndices t.sizes).map t.elemAt

/-- `Tensor::item<T>()` on a 0-dimensional tensor. -/
def item (t : Tensor) : Int := t.storage.getD t.offset 0

/-- Whether the view is a contiguous whole-storage layout. -/
def isContiguous (t : Tensor) : Bool :=
  t.strides == contiguousStrides t.sizes && t.offset == 0

end Tensor

/-- Errors surfaced by the indexing core.  `tooManyIndices` is the
`TORCH_CHECK_INDEX` of `applySlicing`; the others model the failures of the
underlying primitives, which propagate unchanged. -/
inductive IndexingError where
  | tooManyIndices (specified rank : Nat)
  | invalidZeroDimIndex
  | indexOutOfBounds (index : Int) (dim : Nat) (size : Nat)
  | dimOutOfRange (dim rank : Nat)
  | invalidStep
  | shapeBroadcast (srcSizes dstSizes : List Nat)
  | viewUnsupported (srcSizes dstSizes : List Nat)
  | unmodelledPrimitive
  deriving DecidableEq, Repr

/-- Modelled from the spec: `select(view, dim, index)` → view with `dim`
removed.  The index is assumed already normalized to `[0, sizes[dim])`. -/
def selectView (t : Tensor) (d : Nat) (i : Nat) : Tensor :=
  { t with
    sizes := t.sizes.eraseIdx d
    strides := t.strides.eraseIdx d
    offset := t.offset + i * t.strides.getD d 0
    impl := t.impl + 1 }

/-- Modelled from the spec: `unsqueeze(view, dim)` → view with a size-1
dimension inserted at `dim`. -/
def unsqueezeView (t : Tensor) (d : Nat) : Tensor :=
  { t with
    sizes := t.sizes.insertIdx d 1
    strides := t.strides.insertIdx d (t.sizes.getD d 1 * t.strides.getD d 1)
    impl := t.impl + 1 }

/-- Modelled from the spec: `alias(view)` → a new view object sharing storage,
distinct identity. -/
def aliasView (t : Tensor) : Tensor :=
  { t with impl := t.impl + 1 }

/-- Modelled from the spec: narrowing one dimension of a view to an arithmetic
progression of positions (the layout effect of `slice`). -/
def narrowView (t : Tensor) (d : Nat) (start len step : Nat) : Tensor :=
  { t with
    sizes := t.sizes.set d len
    strides := t.strides.set d (t.strides.getD d 0 * step)
    offset := t.offset + start * t.strides.getD d 0
    impl := t.impl + 1 }

/-- Modelled from the spec: `expand(value, shape)` compatibility — right-aligned
per-dimension agreement, where a source dimension of size 1 broadcasts. -/
def expandable (srcSizes dstSizes : List Nat) : Bool :=
  srcSizes.length ≤ dstSizes.length &&
    (List.zipWith (fun a b => a == b || a == 1) srcSizes
      (dstSizes.drop (dstSizes.length - srcSizes.length))).all id

/-- Modelled from the spec: `expand(value, shape)` → broadcast view, no copy
(broadcast dimensions get stride 0); assumes `expandable`. -/
def expandView (t : Tensor) (dstSizes : List Nat) : Tensor :=
  { t with
    sizes := dstSizes
    strides := List.replicate (dstSizes.length - t.sizes.length) 0 ++
      List.zipWith (fun (sz st : Nat) => if sz == 1 then 0 else st) t.sizes t.strides
    impl := t.impl + 1 }

/-- Modelled from the spec: `expand_inplace(dst, src)` — expand `src` against
`dst`'s shape, failing with a shape-broadcast error if incompatible. -/
def expand_inplace (dst src : Tensor) : Except IndexingError Tensor :=
  if expandable src.sizes dst.sizes then .ok (expandView src dst.sizes)
  else .error (.shapeBroadcast src.sizes dst.sizes)

/-- Modelled from the spec: `view` — reinterpret a contiguous view in a new
shape of the same element count, without copying.  (The real primitive accepts
some non-contiguous layouts; the claims only exercise contiguous ones.) -/
def Tensor.view (t : Tensor) (newSizes : List Nat) : Except IndexingError Tensor :=
  if t.isContiguous && newSizes.prod == t.sizes.prod then
    .ok { t with sizes := newSizes, strides := contiguousStrides newSizes, impl := t.impl + 1 }
  else .error (.viewUnsupported t.sizes newSizes)

/-- Modelled from the spec: `copy(dst_view, src_view)` → element-wise in-place
write; the result carries `dst`'s metadata over the updated buffer.  `src` is
assumed already expanded to `dst`'s shape. -/
def copyInPlace (dst src : Tensor) : Tensor :=
  { dst with
    storage := (allIndices dst.sizes).foldl
      (fun buf ix => buf.set (dst.offset + dotProd ix dst.strides) (src.elemAt ix))
      dst.storage }

/-- Modelled from the spec: `to(array, dtype/placement)` → converted array,
identity if already matching. -/
def Tensor.toOptions (t : Tensor) (opts : TensorOptions) : Tensor :=
  if t.dtype == opts.dtype && t.device == opts.device then t
  else { t with dtype := opts.dtype, device := opts.device,
                impl := t.impl + 1, storageId := t.storageId + 1 }

/-- Modelled from the spec: `at::native::zeros(sizes, options)` — a fresh
contiguous zero-filled tensor. -/
def zerosTensor (sizes : List Nat) (opts : TensorOptions) : Tensor :=
  { sizes := sizes
    strides := contiguousStrides sizes
    offset := 0
    storage := List.replicate sizes.prod 0
    dtype := opts.dtype
    device := opts.device
    impl := 0
    storageId := 0 }

/-- Modelled from the spec: `at::native::empty(sizes, options)` — a fresh
contiguous tensor; uninitialized contents are modelled as zeros (the claims
only ever read its shape). -/
def emptyTensor (sizes : List Nat) (opts : TensorOptions) : Tensor :=
  zerosTensor sizes opts

/-- Modelled from the spec: `at::native::scalar_tensor(v, options)` — a fresh
0-dimensional tensor holding the scalar. -/
def scalar_tensor (v : Int) (opts : TensorOptions) : Tensor :=
  { sizes := []
    strides := []
    offset := 0
    storage := [v]
    dtype := opts.dtype
    device := opts.device
    impl := 0
    storageId := 0 }

/-- One position of an index expression (`at::indexing::TensorIndex`): `None`,
`Ellipsis`, integer (optionally backed by a 0-d tensor), boolean, slice
(start/stop/step, each optionally dynamic), or an index tensor.  The inductive
is closed, so the `Invalid` internal state is unrepresentable. -/
inductive TensorIndex where
  | none
  | ellipsis
  | integer (v : Int) (backing : Option Tensor)
  | boolean (b : Bool)
  | slice (start stop step : Int) (startT stopT stepT : Option Tensor)
  | tensor (t : Tensor)
  deriving DecidableEq, Repr

namespace TensorIndex

/-- `TensorIndex::is_integer_with_tensor()`. -/
def is_integer_with_tensor : TensorIndex → Bool
  | .integer _ (some _) => true
  | _ => false

end TensorIndex

/-- Translation of `count_specified_dimensions`: the number of source
dimensions a descriptor list explicitly consumes — everything but ellipsis,
`None` and booleans counts, and a boolean/byte index tensor counts as its own
rank. -/
def count_specified_dimensions : List TensorIndex → Nat
  | [] => 0
  | obj :: rest =>
    (match obj with
     | .tensor t =>
       if t.scalar_type == ScalarType.byte || t.scalar_type == ScalarType.bool then t.dim
       else 1
     | .none => 0
     | .ellipsis => 0
     | .boolean _ => 0
     | _ => 1) + count_specified_dimensions rest

/-- Translation of `valueToTensor`: wrap a scalar as a 0-dimensional tensor
with the given options. -/
def valueToTensor (opts : TensorOptions) (v : Int) : Tensor :=
  scalar_tensor v opts

/-- Translation of `boolToIndexingTensor`: booleans add a dimension of size 1;
`true` indexes it as `0:` (a shape-`[1]` long tensor holding 0), `false` as
empty (a shape-`[0]` long tensor). -/
def boolToIndexingTensor (self : Tensor) (value : Bool) : Tensor :=
  if value then zerosTensor [1] { dtype := .long, device := self.device }
  else emptyTensor [0] { dtype := .long, device := self.device }

/-- Modelled from the spec: `applySelect` (declared outside this file) — apply
the select primitive at `dim` with Python negative-index normalization,
rejecting selection on a 0-dimensional tensor and out-of-bounds indices. -/
def applySelect (self : Tensor) (d : Nat) (index : Int) (realDim : Nat) :
    Except IndexingError Tensor :=
  if self.sizes.length = 0 then .error .invalidZeroDimIndex
  else if d < self.sizes.length then
    let size : Int := self.sizes.getD d 0
    if index < -size || size ≤ index then
      .error (.indexOutOfBounds index realDim size.toNat)
    else
      .ok (selectView self d (if index < 0 then index + size else index).toNat)
  else .error (.dimOutOfRange d self.sizes.length)

/-- Python-slice clamping of a (possibly negative) endpoint into `[0, len]`. -/
def clampIndex (i : Int) (len : Nat) : Nat :=
  (max 0 (min (if i < 0 then i + len else i) len)).toNat

/-- Modelled from the spec: `applySlice` (declared outside this file) — apply
the slice primitive at `dim` with half-open `(start, stop, step)` semantics,
positive step only; unless `disableSliceOpt` is set, a whole-dimension slice
with no dynamic endpoints returns the view unchanged. -/
def applySlice (self : Tensor) (d : Nat) (start stop step : Int)
    (startT stopT stepT : Option Tensor) (disableSliceOpt : Bool) :
    Except IndexingError Tensor :=
  if d < self.sizes.length then
    if step ≤ 0 then .error .invalidStep
    else
      let len := self.sizes.getD d 0
      let start' := clampIndex start len
      let stop' := clampIndex stop len
      let count := (stop' - start' + (step.toNat - 1)) / step.toNat
      if !disableSliceOpt && start' == 0 && stop' == len && step == 1 &&
          startT == Option.none && stopT == Option.none && stepT == Option.none then
        .ok self
      else .ok (narrowView self d start' count step.toNat)
  else .error (.dimOutOfRange d self.sizes.length)

/-- The mutable state of `applySlicing`'s loop: the running basic view, the
output-dimension cursor, and the pending advanced-index list (`outIndices`,
with `Option.none` as the undefined `Tensor()` holes left by `resize`). -/
structure SliceState where
  result : Tensor
  dim : Nat
  outIndices : List (Option Tensor)
  deriving DecidableEq, Repr

/-- `std::vector::resize` on the pending list: truncate or pad with undefined
tensors to the requested length. -/
def resizeIndices (l : List (Option Tensor)) (n : Nat) : List (Option Tensor) :=
  l.take n ++ List.replicate (n - l.length) Option.none

/-- The `handle_tensor` lambda of `applySlicing`: grow the pending list to
`dim + 1`, record the index tensor at position `dim`, and advance `dim`. -/
def handle_tensor (st : SliceState) (t : Tensor) : SliceState :=
  { st with
    outIndices := (resizeIndices st.outIndices (st.dim + 1)).set st.dim (some t)
    dim := st.dim + 1 }

/-- One iteration of `applySlicing`'s descriptor loop (`selfDim` and
`specifiedDims` are the captured `self.dim()` and `specified_dims`; `i` is the
loop counter passed to `applySelect` as the reported dimension). -/
def applySlicingStep (selfDim specifiedDims i : Nat) (st : SliceState)
    (obj : TensorIndex) : Except IndexingError SliceState :=
  match obj with
  | .integer v _ =>
    match applySelect st.result st.dim v i with
    | .ok r => .ok { st with result := r }
    | .error e => .error e
  | .slice start stop step startT stopT stepT =>
    match applySlice st.result st.dim start stop step startT stopT stepT false with
    | .ok r => .ok { st with result := r, dim := st.dim + 1 }
    | .error e => .error e
  | .ellipsis => .ok { st with dim := st.dim + (selfDim - specifiedDims) }
  | .none => .ok { st with result := unsqueezeView st.result st.dim, dim := st.dim + 1 }
  | .boolean b =>
    let r := unsqueezeView st.result st.dim
    .ok (handle_tensor { st with result := r } (boolToIndexingTensor r b))
  | .tensor t =>
    if t.dim == 0 && t.scalar_type.isIntegralType true then
      if t.scalar_type != ScalarType.byte && t.scalar_type != ScalarType.bool then
        match applySelect st.result st.dim t.item i with
        | .ok r => .ok { st with result := r }
        | .error e => .error e
      else
        let r := unsqueezeView st.result st.dim
        .ok (handle_tensor { st with result := r } (boolToIndexingTensor r (t.item != 0)))
    else .ok (handle_tensor st t)

/-- The descriptor loop of `applySlicing`. -/
def applySlicingLoop (selfDim specifiedDims : Nat) :
    Nat → SliceState → List TensorIndex → Except IndexingError SliceState
  | _, st, [] => .ok st
  | i, st, obj :: rest =>
    match applySlicingStep selfDim specifiedDims i st obj with
    | .ok st' => applySlicingLoop selfDim specifiedDims (i + 1) st' rest
    | .error e => .error e

/-- Translation of `applySlicing`, returning the full final loop state. -/
def applySlicingState (self : Tensor) (indices : List TensorIndex) :
    Except IndexingError SliceState :=
  let specified_dims := count_specified_dimensions indices
  if specified_dims ≤ self.dim then
    applySlicingLoop self.dim specified_dims 0 ⟨self, 0, []⟩ indices
  else .error (.tooManyIndices specified_dims self.dim)

/-- Translation of `applySlicing`: the resulting basic view and the pending
advanced-index list. -/
def applySlicing (self : Tensor) (indices : List TensorIndex) :
    Except IndexingError (Tensor × List (Option Tensor)) :=
  match applySlicingState self indices with
  | .ok st => .ok (st.result, st.outIndices)
  | .error e => .error e

/-- Translation of `typeConvertIndices`: convert every defined index tensor to
the basic view's device; undefined entries (holes) pass through unchanged. -/
def typeConvertIndices (self : Tensor) (indices : List (Option Tensor)) :
    List (Option Tensor) :=
  indices.map (fun ind =>
    match ind with
    | some t => some (t.toOptions { t.options with device := self.device })
    | Option.none => Option.none)

/-- Modelled from the spec: the gather primitive `Tensor::index`
(`gather(view, ordered_index_arrays)` → new array).  The spec fixes only the
interface; we model the one configuration the claims' expressions produce — a
single defined 1-dimensional index tensor in position 0 — gathering the
selected dim-0 slices into a fresh contiguous tensor, and flag every other
configuration as an unmodelled primitive call. -/
def Tensor.index (self : Tensor) (indices : List (Option Tensor)) :
    Except IndexingError Tensor :=
  match indices with
  | [some t] =>
    if t.sizes.length == 1 then
      let size0 : Int := self.sizes.getD 0 0
      let vals := t.materialize
      if vals.all (fun v => -size0 ≤ v && v < size0) then
        let outSizes := t.sizes.getD 0 0 :: self.sizes.drop 1
        .ok { sizes := outSizes
              strides := contiguousStrides outSizes
              offset := 0
              storage := vals.flatMap (fun v =>
                (selectView self 0 (if v < 0 then v + size0 else v).toNat).materialize)
              dtype := self.dtype
              device := self.device
              impl := 0
              storageId := 0 }
      else .error (.indexOutOfBounds (vals.getD 0 0) 0 size0.toNat)
    else .error .unmodelledPrimitive
  | _ => .error .unmodelledPrimitive

/-- Modelled from the spec: the scatter primitive `Tensor::index_put_`
(`scatter(view, ordered_index_arrays, value)` → in-place write).  The spec
fixes only the interface and no claim exercises a scatter, so it is left as an
unmodelled primitive call. -/
def Tensor.index_put (_self : Tensor) (_indices : List (Option Tensor))
    (_value : Tensor) : Except IndexingError Tensor :=
  .error .unmodelledPrimitive

/-- Translation of `dispatch_index`: align index-tensor devices, then gather.
(The `OptionalDeviceGuard` is a scoped device context with no effect on the
values computed here.) -/
def dispatch_index (self : Tensor) (indices : List (Option Tensor)) :
    Except IndexingError Tensor :=
  self.index (typeConvertIndices self indices)

/-- Translation of `dispatch_index_put_`: align index-tensor devices, then
scatter. -/
def dispatch_index_put (self : Tensor) (indices : List (Option Tensor))
    (value : Tensor) : Except IndexingError Tensor :=
  self.index_put (typeConvertIndices self indices) value

/-- The general (non-fast-path) tail of `get_item`: run the slicing applier;
with no pending advanced indices return the basic view — re-aliased if it came
back reference-identical to the source — otherwise dispatch the gather. -/
def get_item_general (self : Tensor) (indices : List TensorIndex) :
    Except IndexingError Tensor :=
  match applySlicing self indices with
  | .ok (sliced, tensorIndices) =>
    if tensorIndices.isEmpty then
      if sliced.is_same self then .ok (aliasView sliced) else .ok sliced
    else dispatch_index sliced tensorIndices
  | .error e => .error e

/-- Translation of `get_item`: fast paths for a single `None`, ellipsis,
integer or slice descriptor; everything else goes through the general path. -/
def get_item (self : Tensor) (indices : List TensorIndex) :
    Except IndexingError Tensor :=
  match indices with
  | [TensorIndex.none] => .ok (unsqueezeView self 0)
  | [.ellipsis] => .ok (aliasView self)
  | [.integer v _] => applySelect self 0 v 0
  | [.slice start stop step startT stopT stepT] =>
    applySlice self 0 start stop step startT stopT stepT true
  | _ => get_item_general self indices

/-- The scan of `slicePrefix1sSize`: the position of the first non-unit
entry, defaulting to the length when every entry is 1. -/
def firstNonUnit : List Nat → Nat
  | [] => 0
  | s :: rest => if s != 1 then 0 else firstNonUnit rest + 1

/-- Translation of `slicePrefix1sSize`: strip the unit dimensions from the
left of a shape. -/
def slicePrefix1sSize (sizes : List Nat) : List Nat :=
  sizes.drop (firstNonUnit sizes)

/-- Translation of `copy_to`: view the value in its left-trimmed shape, expand
it against the destination, and copy element-wise into the destination. -/
def copy_to (dst src : Tensor) : Except IndexingError Tensor :=
  match src.view (slicePrefix1sSize src.sizes) with
  | .ok v =>
    match expand_inplace dst v with
    | .ok b_src => .ok (copyInPlace dst b_src)
    | .error e => .error e
  | .error e => .error e

/-- Write-back of a mutation performed through a view that shares `self`'s
storage: `self` keeps its metadata over the view's updated buffer. -/
def writeBack (self w : Tensor) : Tensor :=
  { self with storage := w.storage }

/-- Translation of `set_item` (tensor-valued right-hand side): fast paths for
a single boolean/ellipsis/`None`/integer/slice descriptor, otherwise the
slicing applier followed by broadcast-copy or scatter.  The C++ mutates
`self`'s storage in place; here the updated `self` is returned. -/
def set_item (self : Tensor) (indices : List TensorIndex) (value : Tensor) :
    Except IndexingError Tensor :=
  match indices with
  | [.boolean false] => .ok self
  | [.ellipsis] =>
    match copy_to self value with
    | .ok w => .ok (writeBack self w)
    | .error e => .error e
  | [TensorIndex.none] =>
    match copy_to (unsqueezeView self 0) value with
    | .ok w => .ok (writeBack self w)
    | .error e => .error e
  | [.boolean true] =>
    match copy_to (unsqueezeView self 0) value with
    | .ok w => .ok (writeBack self w)
    | .error e => .error e
  | [.integer v _] =>
    match applySelect self 0 v 0 with
    | .ok sel =>
      match copy_to sel value with
      | .ok w => .ok (writeBack self w)
      | .error e => .error e
    | .error e => .error e
  | [.slice start stop step startT stopT stepT] =>
    match applySlice self 0 start stop step startT stopT stepT false with
    | .ok sl =>
      match copy_to sl value with
      | .ok w => .ok (writeBack self w)
      | .error e => .error e
    | .error e => .error e
  | _ =>
    match applySlicing self indices with
    | .ok (sliced, tensorIndices) =>
      if tensorIndices.isEmpty then
        match copy_to sliced value with
        | .ok w => .ok (writeBack self w)
        | .error e => .error e
      else
        let slicedValueSizes := slicePrefix1sSize value.sizes
        let valuesSlicedE :=
          if value.sizes ≠ slicedValueSizes then value.view slicedValueSizes
          else .ok value
        match valuesSlicedE with
        | .ok valuesSliced =>
          match dispatch_index_put sliced tensorIndices valuesSliced with
          | .ok w => .ok (writeBack self w)
          | .error e => .error e
        | .error e => .error e
    | .error e => .error e

/-- Translation of the scalar overload of `set_item`: wrap the scalar as a
0-dimensional tensor in the destination's options — except a quantized
destination dtype, which converts through a float tensor on the default CPU
placement — then delegate to the tensor-valued `set_item`. -/
def set_itemScalar (self : Tensor) (indices : List TensorIndex) (v : Int) :
    Except IndexingError Tensor :=
  let value :=
    if self.scalar_type.isQIntType then
      valueToTensor { dtype := ScalarType.float, device := Device.cpu } v
    else
      valueToTensor self.options v
  set_item self indices value

/-- The descriptor shapes `get_item` intercepts on its single-descriptor fast
path before reaching `applySlicing`. -/
def isGetFastPath : List TensorIndex → Bool
  | [TensorIndex.none] => true
  | [.ellipsis] => true
  | [.integer _ _] => true
  | [.slice _ _ _ _ _ _] => true
  | _ => false

/-- The single integer/slice descriptor lists whose fast paths in `get_item`
and `set_item` bypass the dimension-count check of `applySlicing`. -/
def isSingleIntOrSliceFast : List TensorIndex → Bool
  | [TensorIndex.integer _ _] => true
  | [.slice _ _ _ _ _ _] => true
  | _ => false

section HelperLemmas

/-- Device conversion keeps the logical shape. -/
theorem toOptions_sizes (t : Tensor) (o : TensorOptions) :
    (t.toOptions o).sizes = t.sizes := by
  unfold Tensor.toOptions; split <;> rfl

/-- Device conversion keeps the flattened contents. -/
theorem toOptions_materialize (t : Tensor) (o : TensorOptions) :
    (t.toOptions o).materialize = t.materialize := by
  unfold Tensor.toOptions Tensor.materialize Tensor.elemAt; split <;> rfl

/-- Device conversion keeps the strides. -/
theorem toOptions_strides (t : Tensor) (o : TensorOptions) :
    (t.toOptions o).strides = t.strides := by
  unfold Tensor.toOptions; split <;> rfl

/-- Device conversion keeps the storage offset. -/
theorem toOptions_offset (t : Tensor) (o : TensorOptions) :
    (t.toOptions o).offset = t.offset := by
  unfold Tensor.toOptions; split <;> rfl

/-- Device conversion keeps the storage buffer. -/
theorem toOptions_storage (t : Tensor) (o : TensorOptions) :
    (t.toOptions o).storage = t.storage := by
  unfold Tensor.toOptions; split <;> rfl

/-- Device conversion lands on the requested device. -/
theorem toOptions_device (t : Tensor) (o : TensorOptions) :
    (t.toOptions o).device = o.device := by
  unfold Tensor.toOptions
  split
  · next h =>
    have h' := (Bool.and_eq_true _ _).mp h
    exact beq_iff_eq.mp h'.2
  · rfl

/-- A view object freshly re-aliased is never the identical object. -/
theorem is_same_aliasView (t : Tensor) : (aliasView t).is_same t = false := by
  simp [aliasView, Tensor.is_same]

/-- A tensor is reference-identical to itself. -/
theorem is_same_self (t : Tensor) : t.is_same t = true := by
  simp [Tensor.is_same]

/-- The applier's arity check always passes: zero specified dimensions. -/
theorem applySlicingState_nil (a : Tensor) :
    applySlicingState a [] = .ok ⟨a, 0, []⟩ := by
  simp [applySlicingState, applySlicingLoop, count_specified_dimensions]

/-- Unsqueezing at position 0 prepends a size-1 dimension. -/
theorem unsqueezeView_zero (a : Tensor) :
    unsqueezeView a 0 =
      ⟨1 :: a.sizes, (a.sizes.getD 0 1 * a.strides.getD 0 1) :: a.strides,
        a.offset, a.storage, a.dtype, a.device, a.impl + 1, a.storageId⟩ := rfl

/-- The left-trim of `slicePrefix1sSize` is exactly dropping the maximal
leading run of 1-entries. -/
theorem slicePrefix1sSize_eq_dropWhile (s : List Nat) :
    slicePrefix1sSize s = s.dropWhile (fun x => x == 1) := by
  induction s with
  | nil => rfl
  | cons x rest ih =>
    by_cases hx : x = 1
    · subst hx
      simp only [slicePrefix1sSize, firstNonUnit]
      norm_num
      simpa [slicePrefix1sSize] using ih
    · simp [slicePrefix1sSize, firstNonUnit, hx, List.dropWhile_cons]

/-- Stripping leading unit dimensions preserves the element count. -/
theorem slicePrefix1sSize_prod (s : List Nat) :
    (slicePrefix1sSize s).prod = s.prod := by
  rw [slicePrefix1sSize_eq_dropWhile]
  induction s with
  | nil => rfl
  | cons x rest ih =>
    by_cases hx : x = 1
    · subst hx
      simpa [List.dropWhile_cons] using ih
    · simp [List.dropWhile_cons, hx]

/-- Gathering with a single shape-`[1]` index tensor holding 0, on a view
whose leading dimension has size 1, produces a leading dimension of size 1. -/
theorem index_mask_true (self t' : Tensor) (hs : t'.sizes = [1])
    (hm : t'.materialize = [0]) (h0 : self.sizes.getD 0 0 = 1) :
    (Tensor.index self [some t']).map (fun o => o.sizes.getD 0 0) = .ok 1 := by
  simp only [Tensor.index, hs, hm, h0]
  norm_num
  simp [Except.map]

/-- Gathering with a single empty (shape-`[0]`) index tensor produces a
leading dimension of size 0. -/
theorem index_mask_false (self t' : Tensor) (hs : t'.sizes = [0])
    (hm : t'.materialize = []) :
    (Tensor.index self [some t']).map (fun o => o.sizes.getD 0 0) = .ok 0 := by
  simp only [Tensor.index, hs, hm]
  norm_num
  simp [Except.map]

/-- On a list that is not a fast-path shape, `get_item` runs the general
path. -/
theorem get_item_not_fast (a : Tensor) (ix : List TensorIndex)
    (h : isGetFastPath ix = false) :
    get_item a ix = get_item_general a ix := by
  match ix with
  | [] => rfl
  | [TensorIndex.none] => simp [isGetFastPath] at h
  | [.ellipsis] => simp [isGetFastPath] at h
  | [.integer _ _] => simp [isGetFastPath] at h
  | [.slice _ _ _ _ _ _] => simp [isGetFastPath] at h
  | [.boolean _] => rfl
  | [.tensor _] => rfl
  | x :: _ :: _ => cases x <;> rfl

end HelperLemmas

section ExampleTensors

/-- A concrete rank-2 tensor of shape `[2, 3]`. -/
def exRank2 : Tensor :=
  { sizes := [2, 3], strides := [3, 1], offset := 0, storage := [0, 1, 2, 3, 4, 5],
    dtype := .float, device := .cpu, impl := 7, storageId := 3 }

/-- A concrete rank-0 (scalar) tensor. -/
def exRank0 : Tensor :=
  { sizes := [], strides := [], offset := 0, storage := [5],
    dtype := .long, device := .cpu, impl := 1, storageId := 1 }

/-- A concrete 1-dimensional long index tensor holding `[0, 1]`. -/
def exIndexArray : Tensor :=
  { sizes := [2], strides := [1], offset := 0, storage := [0, 1],
    dtype := .long, device := .cpu, impl := 4, storageId := 2 }

/-- A concrete 2-dimensional byte mask tensor. -/
def exByteMask : Tensor :=
  { sizes := [2, 2], strides := [2, 1], offset := 0, storage := [1, 0, 0, 1],
    dtype := .byte, device := .cpu, impl := 9, storageId := 4 }

/-- Three integer descriptors — one more than `exRank2`'s rank. -/
def exTripleInts : List TensorIndex :=
  [TensorIndex.integer 0 Option.none, TensorIndex.integer 0 Option.none,
   TensorIndex.integer 0 Option.none]

/-- A concrete contiguous `[1, 3]` value for broadcast-copy. -/
def exSrc13 : Tensor :=
  { sizes := [1, 3], strides := [3, 1], offset := 0, storage := [7, 8, 9],
    dtype := .float, device := .cpu, impl := 11, storageId := 5 }

/-- A concrete `[2, 3]` destination for broadcast-copy. -/
def exDst23 : Tensor :=
  { sizes := [2, 3], strides := [3, 1], offset := 0,
    storage := [0, 0, 0, 0, 0, 0], dtype := .float, device := .cpu,
    impl := 12, storageId := 6 }

/-- A concrete CUDA-resident 1-dimensional long index tensor. -/
def exCudaIndex : Tensor :=
  { sizes := [1], strides := [1], offset := 0, storage := [0],
    dtype := .long, device := .cuda 0, impl := 13, storageId := 7 }

end ExampleTensors

/-- C5: the broadcast-copy helper strips the maximal leading run of size-1
dimensions from the value's shape, views the value in that trimmed shape
(possible, since only unit dimensions were dropped), expands it without
copying against the destination's shape, copies element-wise into the
destination, and fails with a shape-broadcast error when the shapes are
incompatible. -/
theorem C5_broadcast_copy_helper (dst src : Tensor)
    (hc : src.isContiguous = true) :
    slicePrefix1sSize src.sizes = src.sizes.dropWhile (fun x => x == 1) ∧
    (slicePrefix1sSize src.sizes).prod = src.sizes.prod ∧
    (expandable (slicePrefix1sSize src.sizes) dst.sizes = true →
      ∃ v b, src.view (slicePrefix1sSize src.sizes) = .ok v ∧
        v.storage = src.storage ∧
        expand_inplace dst v = .ok b ∧
        b.storage = src.storage ∧ b.storageId = src.storageId ∧
        b.sizes = dst.sizes ∧
        copy_to dst src = .ok (copyInPlace dst b)) ∧
    (expandable (slicePrefix1sSize src.sizes) dst.sizes = false →
      copy_to dst src =
        .error (.shapeBroadcast (slicePrefix1sSize src.sizes) dst.sizes)) := by
  have hview : src.view (slicePrefix1sSize src.sizes) =
      .ok { src with sizes := slicePrefix1sSize src.sizes,
                     strides := contiguousStrides (slicePrefix1sSize src.sizes),
                     impl := src.impl + 1 } := by
    unfold Tensor.view
    rw [if_pos]
    rw [hc, slicePrefix1sSize_prod]
    simp
  have hcopy : copy_to dst src =
      match expand_inplace dst
        { src with sizes := slicePrefix1sSize src.sizes,
                   strides := contiguousStrides (slicePrefix1sSize src.sizes),
                   impl := src.impl + 1 } with
      | .ok b_src => .ok (copyInPlace dst b_src)
      | .error e => .error e := by
    unfold copy_to
    rw [hview]
  refine ⟨slicePrefix1sSize_eq_dropWhile src.sizes,
    slicePrefix1sSize_prod src.sizes, fun hexp => ?_, fun hexp => ?_⟩
  · have hexpand : expand_inplace dst
        { src with sizes := slicePrefix1sSize src.sizes,
                   strides := contiguousStrides (slicePrefix1sSize src.sizes),
                   impl := src.impl + 1 } =
        .ok (expandView
          { src with sizes := slicePrefix1sSize src.sizes,
                     strides := contiguousStrides (slicePrefix1sSize src.sizes),
                     impl := src.impl + 1 } dst.sizes) := by
      unfold expand_inplace
      rw [if_pos]
      exact hexp
    refine ⟨_, _, hview, rfl, hexpand, rfl, rfl, rfl, ?_⟩
    rw [hcopy, hexpand]
  · have hexpand : expand_inplace dst
        { src with sizes := slicePrefix1sSize src.sizes,
                   strides := contiguousStrides (slicePrefix1sSize src.sizes),
                   impl := src.impl + 1 } =
        .error (.shapeBroadcast (slicePrefix1sSize src.sizes) dst.sizes) := by
      unfold expand_inplace
      rw [if_neg]
      simp [hexp]
    rw [hcopy, hexpand]

/-- C5 witness: the helper applied to a concrete contiguous `[1, 3]` value
broadcast-copied into a concrete `[2, 3]` destination. -/
theorem C5_witness :
    ∃ v b, exSrc13.view (slicePrefix1sSize exSrc13.sizes) = .ok v ∧
      v.storage = exSrc13.storage ∧
      expand_inplace exDst23 v = .ok b ∧
      b.storage = exSrc13.storage ∧ b.storageId = exSrc13.storageId ∧
      b.sizes = exDst23.sizes ∧
      copy_to exDst23 exSrc13 = .ok (copyInPlace exDst23 b) :=
  (C5_broadcast_copy_helper exDst23 exSrc13 rfl).2.2.1 rfl

/-- C7: the index-conversion step returns a list of the same length and
order, converting every defined index tensor to the basic view's device while
passing every undefined entry (hole) through unchanged. -/
theorem C7_type_convert_indices (self : Tensor) (indices : List (Option Tensor))
    (i : Nat) :
    (typeConvertIndices self indices).length = indices.length ∧
    (typeConvertIndices self indices).getD i Option.none =
      (match indices.getD i Option.none with
       | some t =>
         some (t.toOptions { dtype := t.dtype, device := self.device })
       | Option.none => Option.none) ∧
    (∀ t, (typeConvertIndices self indices).getD i Option.none = some t →
      t.device = self.device) := by
  have hpoint : (typeConvertIndices self indices).getD i Option.none =
      (match indices.getD i Option.none with
       | some t =>
         some (t.toOptions { dtype := t.dtype, device := self.device })
       | Option.none => Option.none) := by
    simp only [typeConvertIndices, List.getD, List.get?_map]
    cases h : indices.get? i with
    | none => rfl
    | some o => cases o <;> rfl
  refine ⟨by simp [typeConvertIndices], hpoint, fun t ht => ?_⟩
  rw [hpoint] at ht
  cases h : indices.getD i Option.none with
  | none => rw [h] at ht; exact absurd ht (by simp)
  | some w =>
    rw [h] at ht
    simp only [Option.some.injEq] at ht
    rw [← ht]
    exact toOptions_device w _

/-- C7 witness: converting a hole and a CUDA-resident index tensor for a
CPU-resident basic view keeps the hole, keeps the length, and lands the
defined entry on the CPU. -/
theorem C7_witness :
    (typeConvertIndices exRank2 [Option.none, some exCudaIndex]).length = 2 ∧
    (typeConvertIndices exRank2 [Option.none, some exCudaIndex]).getD 0
      Option.none = Option.none ∧
    (exCudaIndex.toOptions
      { dtype := exCudaIndex.dtype, device := exRank2.device }).device =
        exRank2.device := by
  refine ⟨(C7_type_convert_indices exRank2 [Option.none, some exCudaIndex] 0).1,
    (C7_type_convert_indices exRank2 [Option.none, some exCudaIndex] 0).2.1, ?_⟩
  exact (C7_type_convert_indices exRank2 [Option.none, some exCudaIndex] 1).2.2
    _ rfl

/-- C6: for every array `a` and every value `v` (array or scalar), `set` with
the single descriptor `Boolean(false)` returns successfully and leaves `a`
entirely unchanged — no element of its storage is written. -/
theorem C6_false_boolean_assignment_noop (a v : Tensor) (s : Int) :
    set_item a [TensorIndex.boolean false] v = .ok a ∧
    set_itemScalar a [TensorIndex.boolean false] s = .ok a := by
  constructor
  · rfl
  · unfold set_itemScalar
    split <;> rfl

/-- C8: the scalar overload of `set_item` converts the scalar to a
0-dimensional tensor matching the destination's dtype and placement — except a
quantized destination dtype, which converts to a float 0-dimensional tensor on
the default CPU placement — and then delegates to the tensor-valued path. -/
theorem C8_scalar_set_item_delegates (a : Tensor) (ix : List TensorIndex)
    (v : Int) :
    set_itemScalar a ix v =
      set_item a ix
        (if a.scalar_type.isQIntType then
          valueToTensor { dtype := ScalarType.float, device := Device.cpu } v
        else valueToTensor a.options v) ∧
    (∀ opts : TensorOptions,
      (valueToTensor opts v).dim = 0 ∧
      (valueToTensor opts v).dtype = opts.dtype ∧
      (valueToTensor opts v).device = opts.device) ∧
    (valueToTensor a.options v).dtype = a.dtype ∧
    (valueToTensor a.options v).device = a.device := by
  exact ⟨rfl, fun _ => ⟨rfl, rfl, rfl⟩, rfl, rfl⟩

/-- C9: `get` with the single descriptor `None` yields an array of rank
`a.rank + 1` whose new axis at position 0 has size 1, and selecting index 0 on
dimension 0 of that result yields an array equal to `a` — the same view
metadata over the same storage. -/
theorem C9_newaxis_select_roundtrip (a : Tensor) :
    ∃ u r, get_item a [TensorIndex.none] = .ok u ∧
      u.sizes = 1 :: a.sizes ∧ u.dim = a.dim + 1 ∧
      get_item u [TensorIndex.integer 0 Option.none] = .ok r ∧
      r.sizes = a.sizes ∧ r.strides = a.strides ∧ r.offset = a.offset ∧
      r.storage = a.storage ∧ r.storageId = a.storageId ∧
      r.dtype = a.dtype ∧ r.device = a.device := by
  refine ⟨unsqueezeView a 0, selectView (unsqueezeView a 0) 0 0,
    rfl, rfl, rfl, ?_, rfl, rfl, ?_, rfl, rfl, rfl, rfl⟩
  · show applySelect (unsqueezeView a 0) 0 0 0 =
      .ok (selectView (unsqueezeView a 0) 0 0)
    rw [unsqueezeView_zero]
    unfold applySelect
    norm_num
  · simp [selectView, unsqueezeView]

/-- C10: `get` with an empty descriptor list succeeds and returns a fresh
shallow alias of `a`: the applier's loop performs no operation, the pending
advanced-index list is empty, and the result shares `a`'s storage while being
a distinct view object. -/
theorem C10_empty_index_fresh_alias (a : Tensor) :
    applySlicing a [] = .ok (a, []) ∧
    get_item a [] = .ok (aliasView a) ∧
    (aliasView a).storageId = a.storageId ∧
    (aliasView a).storage = a.storage ∧
    (aliasView a).is_same a = false := by
  refine ⟨?_, ?_, rfl, rfl, is_same_aliasView a⟩
  · simp [applySlicing, applySlicingState_nil]
  · show get_item_general a [] = .ok (aliasView a)
    simp [get_item_general, applySlicing, applySlicingState_nil, is_same_self]

/-- C1 (counterexample to the claim as stated): processing the concrete
non-0-dimensional index tensor `exIndexArray` leaves the applier with cursor
`dim = 1`, not the initial `dim = 0` the claim asserts is unchanged. -/
theorem C1_counterexample_dim_advances :
    (applySlicingStep 1 1 0 ⟨exRank2, 0, []⟩ (.tensor exIndexArray)).map
        SliceState.dim = .ok 1 ∧
    (1 : Nat) ≠ 0 := by
  exact ⟨rfl, one_ne_zero⟩

/-- C1 (amended): when the slicing applier processes a non-0-dimensional
index-tensor descriptor, it appends the tensor unmodified to the pending
advanced-index list at the current output-dimension cursor `dim`, performs no
view operation on the running result, and advances `dim` by exactly one. -/
theorem C1_tensor_descriptor_appends_and_advances (selfDim specifiedDims i : Nat)
    (st : SliceState) (t : Tensor) (a : Tensor) (ht : t.dim ≠ 0) :
    applySlicingStep selfDim specifiedDims i st (.tensor t) =
      .ok { result := st.result
            dim := st.dim + 1
            outIndices :=
              (resizeIndices st.outIndices (st.dim + 1)).set st.dim (some t) } ∧
    (count_specified_dimensions [TensorIndex.tensor t] ≤ a.dim →
      applySlicing a [TensorIndex.tensor t] = .ok (a, [some t])) := by
  have hb : (t.dim == 0 && t.scalar_type.isIntegralType true) = false := by
    simp [ht]
  have hstep : ∀ sd sp j (s : SliceState),
      applySlicingStep sd sp j s (.tensor t) =
        .ok { result := s.result
              dim := s.dim + 1
              outIndices :=
                (resizeIndices s.outIndices (s.dim + 1)).set s.dim (some t) } := by
    intro sd sp j s
    simp [applySlicingStep, hb, handle_tensor]
  refine ⟨hstep selfDim specifiedDims i st, fun hc => ?_⟩
  simp [applySlicing, applySlicingState, hc, applySlicingLoop, hstep,
    resizeIndices]

/-- C2 (counterexample to the claim as stated): a rank-0 tensor indexed with
the single integer descriptor `0` has a specified-dimension count of 1,
exceeding the rank, yet `get` fails inside the select primitive's 0-dim check
on the fast path, not with the indexing-arity error. -/
theorem C2_counterexample_fast_path_error :
    count_specified_dimensions [TensorIndex.integer 0 Option.none] = 1 ∧
    exRank0.dim = 0 ∧
    get_item exRank0 [TensorIndex.integer 0 Option.none] =
      .error .invalidZeroDimIndex ∧
    IndexingError.invalidZeroDimIndex ≠ .tooManyIndices 1 0 := by
  exact ⟨rfl, rfl, rfl, by decide⟩

/-- C2 (amended): the specified-dimension count is 0 for `None`, `Ellipsis`
and booleans, the mask's own rank for a boolean/byte index tensor, and 1 for
every other descriptor; whenever the count exceeds the source rank the applier
— and therefore `get`/`set` on every expression except a single integer/range
fast-path descriptor, which fails inside the select/slice primitive instead —
fails with the indexing-arity error. -/
theorem C2_count_rules_and_arity_error (a : Tensor) (ix : List TensorIndex)
    (v : Tensor) :
    (∀ rest, count_specified_dimensions (TensorIndex.none :: rest) =
      count_specified_dimensions rest) ∧
    (∀ rest, count_specified_dimensions (TensorIndex.ellipsis :: rest) =
      count_specified_dimensions rest) ∧
    (∀ b rest, count_specified_dimensions (TensorIndex.boolean b :: rest) =
      count_specified_dimensions rest) ∧
    (∀ t rest,
      (t.scalar_type = ScalarType.byte ∨ t.scalar_type = ScalarType.bool) →
      count_specified_dimensions (TensorIndex.tensor t :: rest) =
        t.dim + count_specified_dimensions rest) ∧
    (∀ t rest, t.scalar_type ≠ ScalarType.byte →
      t.scalar_type ≠ ScalarType.bool →
      count_specified_dimensions (TensorIndex.tensor t :: rest) =
        1 + count_specified_dimensions rest) ∧
    (∀ n bt rest,
      count_specified_dimensions (TensorIndex.integer n bt :: rest) =
        1 + count_specified_dimensions rest) ∧
    (∀ b e st' t1 t2 t3 rest,
      count_specified_dimensions (TensorIndex.slice b e st' t1 t2 t3 :: rest) =
        1 + count_specified_dimensions rest) ∧
    (a.dim < count_specified_dimensions ix →
      applySlicing a ix =
        .error (.tooManyIndices (count_specified_dimensions ix) a.dim)) ∧
    (a.dim < count_specified_dimensions ix →
      isSingleIntOrSliceFast ix = false →
      get_item a ix =
        .error (.tooManyIndices (count_specified_dimensions ix) a.dim) ∧
      set_item a ix v =
        .error (.tooManyIndices (count_specified_dimensions ix) a.dim)) := by
  have harity : a.dim < count_specified_dimensions ix →
      applySlicing a ix =
        .error (.tooManyIndices (count_specified_dimensions ix) a.dim) := by
    intro hc
    have hnle : ¬ (count_specified_dimensions ix ≤ a.dim) := Nat.not_le.mpr hc
    simp [applySlicing, applySlicingState, hnle]
  refine ⟨fun rest => by simp [count_specified_dimensions],
    fun rest => by simp [count_specified_dimensions],
    fun b rest => by simp [count_specified_dimensions],
    fun t rest h => ?_, fun t rest h1 h2 => ?_,
    fun n bt rest => by simp [count_specified_dimensions],
    fun b e st' t1 t2 t3 rest => by simp [count_specified_dimensions],
    harity, fun hc hfast => ?_⟩
  · rcases h with h | h <;> simp [count_specified_dimensions, h]
  · simp [count_specified_dimensions, h1, h2]
  · cases ix with
    | nil => simp [count_specified_dimensions] at hc
    | cons x rest =>
      cases rest with
      | nil =>
        cases x with
        | none => simp [count_specified_dimensions] at hc
        | ellipsis => simp [count_specified_dimensions] at hc
        | boolean b => simp [count_specified_dimensions] at hc
        | integer n bt => simp [isSingleIntOrSliceFast] at hfast
        | slice b e st' t1 t2 t3 => simp [isSingleIntOrSliceFast] at hfast
        | tensor t =>
          constructor
          · show get_item_general a [TensorIndex.tensor t] = _
            simp [get_item_general, harity hc]
          · simp [set_item, harity hc]
      | cons y rest2 =>
        constructor
        · rw [get_item_not_fast a _ (by cases x <;> rfl)]
          simp [get_item_general, harity hc]
        · cases x <;> simp [set_item, harity hc]

/-- C2 witness: the amended theorem applied at concrete inputs — a
2-dimensional byte mask counting 2, a plain index tensor counting 1, and a
rank-2 tensor indexed by three integers failing with the arity error on both
`get` and `set`. -/
theorem C2_witness :
    count_specified_dimensions [TensorIndex.tensor exByteMask] = 2 ∧
    count_specified_dimensions [TensorIndex.tensor exIndexArray] = 1 ∧
    get_item exRank2 exTripleInts = .error (.tooManyIndices 3 2) ∧
    set_item exRank2 exTripleInts exRank0 = .error (.tooManyIndices 3 2) := by
  obtain ⟨-, -, -, h4, h5, -, -, -, h9⟩ :=
    C2_count_rules_and_arity_error exRank2 exTripleInts exRank0
  obtain ⟨hg, hs⟩ := h9 (by decide) (by decide)
  exact ⟨h4 exByteMask [] (Or.inl rfl), h5 exIndexArray [] (by decide) (by decide),
    hg, hs⟩

/-- C3: `get` with a no-op index expression — a bare ellipsis, or a
general-path expression whose basic view comes back reference-identical to the
source with no pending advanced indices — returns a new view object sharing
the source's storage that is not the identical object. -/
theorem C3_noop_get_returns_fresh_alias (a : Tensor) (ix : List TensorIndex)
    (hfast : isGetFastPath ix = false)
    (happ : applySlicing a ix = .ok (a, [])) :
    (get_item a [TensorIndex.ellipsis] = .ok (aliasView a) ∧
      (aliasView a).storageId = a.storageId ∧
      (aliasView a).storage = a.storage ∧
      (aliasView a).is_same a = false) ∧
    get_item a ix = .ok (aliasView a) := by
  refine ⟨⟨rfl, rfl, rfl, is_same_aliasView a⟩, ?_⟩
  rw [get_item_not_fast a ix hfast]
  simp [get_item_general, happ, is_same_self]

/-- C3 witness: the theorem applied to a concrete tensor and the no-op
general-path expression `(...)` containing two ellipses. -/
theorem C3_witness :
    (get_item exRank2 [TensorIndex.ellipsis] = .ok (aliasView exRank2) ∧
      (aliasView exRank2).storageId = exRank2.storageId ∧
      (aliasView exRank2).storage = exRank2.storage ∧
      (aliasView exRank2).is_same exRank2 = false) ∧
    get_item exRank2 [TensorIndex.ellipsis, TensorIndex.ellipsis] =
      .ok (aliasView exRank2) :=
  C3_noop_get_returns_fresh_alias exRank2
    [TensorIndex.ellipsis, TensorIndex.ellipsis] rfl rfl

/-- C4: a Boolean descriptor makes the applier unsqueeze a size-1 dimension at
the cursor and append a 1-dimensional long index tensor of shape `[1]`
(holding 0) for `true` or `[0]` (empty) for `false`; consequently
`a[True].shape[0] = 1` and `a[False].shape[0] = 0`. -/
theorem C4_boolean_descriptor_unsqueeze_and_mask (sd sp i : Nat)
    (st : SliceState) (b : Bool) (a : Tensor) :
    applySlicingStep sd sp i st (.boolean b) =
      .ok { result := unsqueezeView st.result st.dim
            dim := st.dim + 1
            outIndices := (resizeIndices st.outIndices (st.dim + 1)).set st.dim
              (some (boolToIndexingTensor (unsqueezeView st.result st.dim) b)) } ∧
    (boolToIndexingTensor a true).sizes = [1] ∧
    (boolToIndexingTensor a true).dim = 1 ∧
    (boolToIndexingTensor a true).dtype = ScalarType.long ∧
    (boolToIndexingTensor a true).materialize = [0] ∧
    (boolToIndexingTensor a false).sizes = [0] ∧
    (boolToIndexingTensor a false).dim = 1 ∧
    (boolToIndexingTensor a false).dtype = ScalarType.long ∧
    (boolToIndexingTensor a false).materialize = [] ∧
    (get_item a [TensorIndex.boolean true]).map (fun o => o.sizes.getD 0 0) =
      .ok 1 ∧
    (get_item a [TensorIndex.boolean false]).map (fun o => o.sizes.getD 0 0) =
      .ok 0 := by
  have hstate : ∀ c, applySlicingState a [TensorIndex.boolean c] =
      .ok ⟨unsqueezeView a 0, 1,
        [some (boolToIndexingTensor (unsqueezeView a 0) c)]⟩ := by
    intro c
    simp [applySlicingState, count_specified_dimensions, applySlicingLoop,
      applySlicingStep, handle_tensor, resizeIndices]
  have hget : ∀ c, get_item a [TensorIndex.boolean c] =
      dispatch_index (unsqueezeView a 0)
        [some (boolToIndexingTensor (unsqueezeView a 0) c)] := by
    intro c
    show get_item_general a [TensorIndex.boolean c] = _
    simp [get_item_general, applySlicing, hstate]
  refine ⟨?_, rfl, rfl, rfl, rfl, rfl, rfl, rfl, rfl, ?_, ?_⟩
  · simp [applySlicingStep, handle_tensor]
  · rw [hget true]
    simp only [dispatch_index, typeConvertIndices, List.map]
    apply index_mask_true
    · rw [toOptions_sizes]; rfl
    · rw [toOptions_materialize]; rfl
    · simp [unsqueezeView_zero]
  · rw [hget false]
    simp only [dispatch_index, typeConvertIndices, List.map]
    apply index_mask_false
    · rw [toOptions_sizes]; rfl
    · rw [toOptions_materialize]; rfl

/-- C1 witness: the amended theorem applied at a concrete state and index
tensor. -/
theorem C1_witness :
    applySlicingStep 2 1 0 ⟨exRank2, 0, []⟩ (.tensor exIndexArray) =
      .ok { result := exRank2, dim := 1, outIndices := [some exIndexArray] } ∧
    applySlicing exRank2 [TensorIndex.tensor exIndexArray] =
      .ok (exRank2, [some exIndexArray]) := by
  have h := C1_tensor_descriptor_appends_and_advances 2 1 0 ⟨exRank2, 0, []⟩
    exIndexArray exRank2 (by decide)
  exact ⟨h.1, h.2 (by decide)⟩

end TensorIndexing
